import Mathlib

/-!
Shallow embedding of the comment-handling core of the youtube-mcp-server
repository: the `CommentService` (`src/services/comment.ts`) and the comment
projection helper of the test script (`tests/comments.test.ts`).

Modelling conventions:
* A JavaScript object whose fields may be absent is a structure whose fields
  are `Option`-typed; `none` stands for the field being absent (`undefined`).
* JS truthiness on string-or-undefined values (`if (!apiKey)`, `x || ''`,
  `comment.parentId && comment.text`) is modelled explicitly: `undefined`
  and the empty string are falsy, every other string is truthy; an object
  field (`comment.snippet`) is truthy exactly when present.
* A thrown JS error is `Except.error` carrying the error message; the
  `try/catch` wrappers of the service methods are the corresponding `match`.
* The lazily initialized service instance (`this.youtube`,
  `this.initialized`) is explicit state: each method takes the state and
  returns the possibly-updated state.
* The upstream googleapis client is a function argument
  `api : request → Except String response`; each service method also
  returns the list of upstream requests it issued, so "exactly one
  upstream request, with these parameters" is a provable statement.
-/

namespace YoutubeMcp

/-- JS truthiness of a string-or-undefined value: `undefined` and `""` are
falsy, every other string is truthy. -/
def strTruthy : Option String → Bool
  | none => false
  | some s => s != ""

/-- JS `x || d` for a string-or-undefined `x`: the default replaces both an
absent and an empty (falsy) string. -/
def strOrElse (x : Option String) (d : String) : String :=
  match x with
  | none => d
  | some s => if s = "" then d else s

/-- The innermost snippet of a top-level comment: only `textDisplay` is read
by the service. -/
structure TopSnippet where
  textDisplay : Option String
deriving DecidableEq, Repr

/-- `comment.snippet.topLevelComment` of an upstream comment-thread record. -/
structure TopLevelComment where
  snippet : Option TopSnippet
deriving DecidableEq, Repr

/-- `comment.snippet` of an upstream comment-thread record. -/
structure ThreadSnippet where
  topLevelComment : Option TopLevelComment
deriving DecidableEq, Repr

/-- A comment-thread record as the projection code can observe it: every
field, at every nesting depth, may be absent. This covers raw upstream
records (`id`, `snippet`), already-projected records (`parentId`, `text`),
and every mixture. -/
structure CommentRec where
  id : Option String
  snippet : Option ThreadSnippet
  parentId : Option String
  text : Option String
deriving DecidableEq, Repr

/-- The interface `OptimizedComment` of `src/services/comment.ts`: the object
literal `\x7b parentId, text \x7d` has exactly these two keys. `parentId` is
`Option String` because the source assigns `comment.id`, which may be absent
(the TS project compiles with strictness off). -/
structure OptimizedComment where
  parentId : Option String
  text : String
deriving DecidableEq, Repr

/-- The value of `\x7b parentId, text \x7d` seen again as a JS comment record:
it has no `id` and no `snippet` key. Used to compare a projection output with
an input record. -/
def OptimizedComment.toRec (p : OptimizedComment) : CommentRec :=
  { id := none, snippet := none, parentId := p.parentId, text := some p.text }

/-- `CommentService.extractEssentialComments`, body of the `map` callback:
`topLevelSnippet = comment.snippet?.topLevelComment?.snippet`,
`parentId = comment.id`, `text = topLevelSnippet?.textDisplay || ''`. -/
def extractEssentialComment (comment : CommentRec) : OptimizedComment :=
  let topLevelSnippet :=
    comment.snippet.bind (fun s => s.topLevelComment.bind (fun t => t.snippet))
  { parentId := comment.id
    text := strOrElse (topLevelSnippet.bind (fun s => s.textDisplay)) "" }

/-- `CommentService.extractEssentialComments`: `comments.map (...)`. -/
def extractEssentialComments (comments : List CommentRec) : List OptimizedComment :=
  comments.map extractEssentialComment

/-- `reply.snippet` of an upstream reply record: `textDisplay` sits directly
below `snippet` (no `topLevelComment` level). -/
structure ReplySnippet where
  textDisplay : Option String
deriving DecidableEq, Repr

/-- An upstream reply record: every field may be absent. -/
structure ReplyRec where
  snippet : Option ReplySnippet
deriving DecidableEq, Repr

/-- `CommentService.extractEssentialReplies`, body of the `map` callback:
`reply.snippet?.textDisplay || ''`. -/
def extractEssentialReply (reply : ReplyRec) : String :=
  strOrElse (reply.snippet.bind (fun s => s.textDisplay)) ""

/-- `CommentService.extractEssentialReplies`: `replies.map (...)`. -/
def extractEssentialReplies (replies : List ReplyRec) : List String :=
  replies.map extractEssentialReply

/-- `extractEssentialComments` of `tests/comments.test.ts`, body of the `map`
callback. Unlike the production service it first probes whether the record
is already optimized: `if (comment.parentId && comment.text &&
!comment.snippet) return comment;` (JS truthiness: present, nonempty strings,
and no snippet object), otherwise it projects exactly as the service does.
Its output is a JS record again (`any[]`). -/
def extractEssentialCommentTestScript (comment : CommentRec) : CommentRec :=
  if strTruthy comment.parentId && strTruthy comment.text && comment.snippet.isNone then
    comment
  else
    let topLevelSnippet :=
      comment.snippet.bind (fun s => s.topLevelComment.bind (fun t => t.snippet))
    { id := none, snippet := none
      parentId := comment.id
      text := some (strOrElse (topLevelSnippet.bind (fun s => s.textDisplay)) "") }

/-- `extractEssentialComments` of `tests/comments.test.ts`: the `map`. -/
def extractEssentialCommentsTestScript (comments : List CommentRec) : List CommentRec :=
  comments.map extractEssentialCommentTestScript

/-- The handle built by `google.youtube(\x7b version: 'v3', auth: apiKey \x7d)`. -/
structure YoutubeClient where
  version : String
  auth : String
deriving DecidableEq, Repr

/-- The mutable fields of a `CommentService` instance: `private youtube`
(absent until built) and `private initialized = false`. -/
structure CommentService where
  youtube : Option YoutubeClient
  initialized : Bool
deriving DecidableEq, Repr

/-- `new CommentService()`: the constructor body is empty, so no client is
constructed and the initialized flag is still false. -/
def CommentService.new : CommentService :=
  { youtube := none, initialized := false }

/-- `private initialize()` of `CommentService`. `env` is the value of
`process.env.YOUTUBE_API_KEY` (absent, empty, or a key). Returns early if
already initialized; throws if the key is falsy; otherwise builds the client
and sets the flag. -/
def CommentService.initializeClient (s : CommentService) (env : Option String) :
    Except String CommentService :=
  if s.initialized then .ok s
  else if !strTruthy env then
    .error "YOUTUBE_API_KEY environment variable is not set."
  else
    .ok { youtube := some { version := "v3", auth := env.getD "" }
          initialized := true }

/-- `pageInfo` of an upstream response; passed through by the service. -/
structure PageInfo where
  totalResults : Option Int
  resultsPerPage : Option Int
deriving DecidableEq, Repr

/-- `response.data` of `youtube.commentThreads.list`: `items` may be absent. -/
structure CommentThreadsResponse where
  items : Option (List CommentRec)
  pageInfo : Option PageInfo
deriving DecidableEq, Repr

/-- `response.data` of `youtube.comments.list`: `items` may be absent. -/
structure RepliesResponse where
  items : Option (List ReplyRec)
deriving DecidableEq, Repr

/-- The argument object of `getVideoComments` (`VideoCommentsParams` of
`src/types.ts` as used here): `maxResults` and `textFormat` may be omitted. -/
structure VideoCommentsParams where
  videoId : String
  maxResults : Option Nat
  textFormat : Option String
deriving DecidableEq, Repr

/-- The argument object of `getCommentReplies`. -/
structure CommentRepliesParams where
  parentId : String
  maxResults : Option Nat
  textFormat : Option String
deriving DecidableEq, Repr

/-- The request object passed to `youtube.commentThreads.list`. -/
structure CommentThreadsListRequest where
  part : List String
  videoId : String
  maxResults : Nat
  textFormat : String
  order : String
deriving DecidableEq, Repr

/-- The request object passed to `youtube.comments.list`. -/
structure CommentsListRequest where
  part : List String
  parentId : String
  maxResults : Nat
  textFormat : String
deriving DecidableEq, Repr

/-- The request `getVideoComments` builds: destructuring defaults
`maxResults = 20`, `textFormat = 'plainText'` apply when the field is absent,
and the literal fields `part`, `order` are fixed. -/
def videoCommentsRequest (p : VideoCommentsParams) : CommentThreadsListRequest :=
  { part := ["snippet", "replies"]
    videoId := p.videoId
    maxResults := p.maxResults.getD 20
    textFormat := p.textFormat.getD "plainText"
    order := "relevance" }

/-- The request `getCommentReplies` builds. -/
def commentRepliesRequest (p : CommentRepliesParams) : CommentsListRequest :=
  { part := ["snippet"]
    parentId := p.parentId
    maxResults := p.maxResults.getD 20
    textFormat := p.textFormat.getD "plainText" }

/-- The value returned by `getVideoComments` on success. -/
structure VideoCommentsResult where
  comments : List OptimizedComment
  pageInfo : Option PageInfo
deriving DecidableEq, Repr

/-- `CommentService.getVideoComments`. The whole body sits in one
`try/catch`, `this.initialize()` included, and the catch rethrows
`'Failed to get comments: ' + message`. `response.data.items || []` keeps
any present array (arrays are truthy in JS, the empty one included) and
defaults an absent `items` to `[]`. The first component of the result is
the list of upstream requests issued during the call. -/
def CommentService.getVideoComments (s : CommentService) (env : Option String)
    (api : CommentThreadsListRequest → Except String CommentThreadsResponse)
    (p : VideoCommentsParams) :
    List CommentThreadsListRequest × Except String (CommentService × VideoCommentsResult) :=
  match s.initializeClient env with
  | .error e => ([], .error ("Failed to get comments: " ++ e))
  | .ok s1 =>
      let request := videoCommentsRequest p
      match api request with
      | .error e => ([request], .error ("Failed to get comments: " ++ e))
      | .ok response =>
          ([request],
           .ok (s1, { comments := extractEssentialComments (response.items.getD [])
                      pageInfo := response.pageInfo }))

/-- `CommentService.getCommentReplies`: same shape, catch message
`'Failed to get replies: ' + message`, result a plain list of strings. -/
def CommentService.getCommentReplies (s : CommentService) (env : Option String)
    (api : CommentsListRequest → Except String RepliesResponse)
    (p : CommentRepliesParams) :
    List CommentsListRequest × Except String (CommentService × List String) :=
  match s.initializeClient env with
  | .error e => ([], .error ("Failed to get replies: " ++ e))
  | .ok s1 =>
      let request := commentRepliesRequest p
      match api request with
      | .error e => ([request], .error ("Failed to get replies: " ++ e))
      | .ok response =>
          ([request], .ok (s1, extractEssentialReplies (response.items.getD [])))

/-- A concrete upstream comment-thread record with the full raw shape. -/
def sampleThread : CommentRec :=
  { id := some "thread1"
    snippet := some { topLevelComment := some { snippet := some { textDisplay := some "Great video" } } }
    parentId := none
    text := none }

/-- A concrete already-projected record with nonempty fields. -/
def sampleProjected : CommentRec :=
  { id := none, snippet := none, parentId := some "abc", text := some "hello" }

/-- A concrete upstream reply record. -/
def sampleReply : ReplyRec :=
  { snippet := some { textDisplay := some "Thanks" } }

/-- An upstream API stub answering every comment-threads request with one
record and pagination metadata. -/
def threadsApiOk : CommentThreadsListRequest → Except String CommentThreadsResponse :=
  fun _ => .ok { items := some [sampleThread]
                 pageInfo := some { totalResults := some 42, resultsPerPage := some 20 } }

/-- An upstream API stub answering every replies request with one record. -/
def repliesApiOk : CommentsListRequest → Except String RepliesResponse :=
  fun _ => .ok { items := some [sampleReply] }

/-- C1: the claim as stated fails on the production projection.
`CommentService.extractEssentialComments` performs no already-projected
detection: on the record `\x7b parentId: 'abc', text: 'hello' \x7d` (exactly the
minimal field set, no upstream shape) it reads `comment.id` (absent) and the
nested snippet (absent), producing `\x7b parentId: undefined, text: '' \x7d`,
which differs from the input; the singleton list is likewise changed. -/
theorem C1_counterexample :
    (extractEssentialComment sampleProjected).toRec ≠ sampleProjected
    ∧ extractEssentialComments [sampleProjected]
        = [{ parentId := none, text := "" }] := by
  constructor
  · decide
  · rfl

/-- C1 (amended): only the test script's `extractEssentialComments`
(`tests/comments.test.ts`) passes already-projected records through
unchanged, and only when `parentId` and `text` are truthy (present and
nonempty) and no `snippet` field is present; a list of such records is
returned as the same list. -/
theorem C1_theorem (c : CommentRec) (l : List CommentRec)
    (h1 : strTruthy c.parentId = true) (h2 : strTruthy c.text = true)
    (h3 : c.snippet = none)
    (hl : ∀ x ∈ l, strTruthy x.parentId = true ∧ strTruthy x.text = true ∧ x.snippet = none) :
    extractEssentialCommentTestScript c = c
    ∧ extractEssentialCommentsTestScript l = l := by
  have single : ∀ x : CommentRec, strTruthy x.parentId = true → strTruthy x.text = true →
      x.snippet = none → extractEssentialCommentTestScript x = x := by
    intro x hx1 hx2 hx3
    simp [extractEssentialCommentTestScript, hx1, hx2, hx3]
  refine ⟨single c h1 h2 h3, ?_⟩
  induction l with
  | nil => rfl
  | cons y ys ih =>
      have hy := hl y (List.mem_cons_self y ys)
      have hys : ∀ x ∈ ys, strTruthy x.parentId = true ∧ strTruthy x.text = true ∧ x.snippet = none :=
        fun x hx => hl x (List.mem_cons_of_mem y hx)
      simp [extractEssentialCommentsTestScript] at ih ⊢
      exact ⟨single y hy.1 hy.2.1 hy.2.2, ih hys⟩

/-- C1 witness: the amended statement at the concrete already-projected
record `\x7b parentId: 'abc', text: 'hello' \x7d`. -/
theorem C1_witness :
    extractEssentialCommentTestScript sampleProjected = sampleProjected
    ∧ extractEssentialCommentsTestScript [sampleProjected] = [sampleProjected] :=
  C1_theorem sampleProjected [sampleProjected] (by decide) (by decide) (by decide)
    (by decide)

/-- C2: the claim as stated fails on the code. `getVideoComments` calls
`this.initialize()` inside its `try` block, so when `YOUTUBE_API_KEY` is
absent at first use the thrown configuration error is caught by the
operation's own catch and re-raised as the per-call error
`'Failed to get comments: YOUTUBE_API_KEY environment variable is not
set.'` — the same channel as any upstream failure — rather than escaping
uncaught; the same fresh instance then serves a later call successfully
once the key is present, so the failure is recoverable per call. -/
theorem C2_counterexample :
    CommentService.getVideoComments CommentService.new none threadsApiOk
        { videoId := "dQw4w9WgXcQ", maxResults := none, textFormat := none }
      = ([], .error "Failed to get comments: YOUTUBE_API_KEY environment variable is not set.")
    ∧ CommentService.getVideoComments CommentService.new (some "key") threadsApiOk
        { videoId := "dQw4w9WgXcQ", maxResults := none, textFormat := none }
      = ([videoCommentsRequest { videoId := "dQw4w9WgXcQ", maxResults := none, textFormat := none }],
         .ok ({ youtube := some { version := "v3", auth := "key" }, initialized := true },
              { comments := extractEssentialComments [sampleThread]
                pageInfo := some { totalResults := some 42, resultsPerPage := some 20 } })) :=
  ⟨rfl, rfl⟩

/-- C2 (amended): the upstream client is constructed lazily — the
constructor builds nothing — and at most once per instance (an initialized
instance is returned unchanged); first use with a truthy key constructs the
client from that key; but a missing key at first use is caught by the
operation's try/catch and surfaced as the recoverable per-call error
`'Failed to get comments: ...'`, with no upstream request issued, not as a
fatal uncaught failure. -/
theorem C2_theorem (s : CommentService) (env : Option String) (k : String)
    (api : CommentThreadsListRequest → Except String CommentThreadsResponse)
    (p : VideoCommentsParams)
    (hs : s.initialized = false) (henv : strTruthy env = false)
    (hk : k ≠ "") :
    CommentService.new.youtube = none
    ∧ CommentService.new.initialized = false
    ∧ (∀ (e : Option String) (s' : CommentService), s'.initialized = true →
        s'.initializeClient e = .ok s')
    ∧ s.initializeClient (some k)
        = .ok { youtube := some { version := "v3", auth := k }, initialized := true }
    ∧ s.getVideoComments env api p
        = ([], .error "Failed to get comments: YOUTUBE_API_KEY environment variable is not set.") := by
  refine ⟨rfl, rfl, ?_, ?_, ?_⟩
  · intro e s' h
    simp [CommentService.initializeClient, h]
  · simp [CommentService.initializeClient, hs, strTruthy, hk]
  · simp [CommentService.getVideoComments, CommentService.initializeClient, hs, henv]

/-- C2 witness: the amended statement at a fresh instance, absent key,
concrete stub API and arguments. -/
theorem C2_witness :
    CommentService.new.youtube = none
    ∧ CommentService.new.initialized = false
    ∧ (∀ (e : Option String) (s' : CommentService), s'.initialized = true →
        s'.initializeClient e = .ok s')
    ∧ CommentService.new.initializeClient (some "key")
        = .ok { youtube := some { version := "v3", auth := "key" }, initialized := true }
    ∧ CommentService.new.getVideoComments none threadsApiOk
        { videoId := "dQw4w9WgXcQ", maxResults := none, textFormat := none }
        = ([], .error "Failed to get comments: YOUTUBE_API_KEY environment variable is not set.") :=
  C2_theorem CommentService.new none "key" threadsApiOk
    { videoId := "dQw4w9WgXcQ", maxResults := none, textFormat := none }
    rfl rfl (by decide)

/-- C3: with `maxResults` and `textFormat` omitted, `getVideoComments`
issues exactly one upstream `commentThreads.list` request — parts
`snippet,replies`, the given videoId, `maxResults = 20`,
`textFormat = 'plainText'`, `order = 'relevance'` — and for an upstream
response of `n = l.length` records returns `comments` of length `n`
(each element an `OptimizedComment`, i.e. exactly the keys `parentId` and
`text`) and the upstream `pageInfo` unchanged. -/
theorem C3_theorem (s s1 : CommentService) (env : Option String)
    (api : CommentThreadsListRequest → Except String CommentThreadsResponse)
    (videoId : String) (l : List CommentRec) (pgInfo : Option PageInfo)
    (hinit : s.initializeClient env = .ok s1)
    (hapi : api { part := ["snippet", "replies"], videoId := videoId, maxResults := 20,
                  textFormat := "plainText", order := "relevance" }
            = .ok { items := some l, pageInfo := pgInfo }) :
    s.getVideoComments env api { videoId := videoId, maxResults := none, textFormat := none }
      = ([{ part := ["snippet", "replies"], videoId := videoId, maxResults := 20,
            textFormat := "plainText", order := "relevance" }],
         .ok (s1, { comments := extractEssentialComments l, pageInfo := pgInfo }))
    ∧ (extractEssentialComments l).length = l.length
    ∧ ∀ c ∈ extractEssentialComments l, c = { parentId := c.parentId, text := c.text } := by
  refine ⟨?_, ?_, ?_⟩
  · simp [CommentService.getVideoComments, hinit, videoCommentsRequest, hapi]
  · simp [extractEssentialComments]
  · intro c _
    rfl

/-- C3 witness: fresh instance, key present, stub upstream returning one
record with `totalResults = 42`; the response carries that record projected
and the pagination unchanged. -/
theorem C3_witness :
    CommentService.new.getVideoComments (some "key") threadsApiOk
        { videoId := "dQw4w9WgXcQ", maxResults := none, textFormat := none }
      = ([{ part := ["snippet", "replies"], videoId := "dQw4w9WgXcQ", maxResults := 20,
            textFormat := "plainText", order := "relevance" }],
         .ok ({ youtube := some { version := "v3", auth := "key" }, initialized := true },
              { comments := extractEssentialComments [sampleThread]
                pageInfo := some { totalResults := some 42, resultsPerPage := some 20 } }))
    ∧ (extractEssentialComments [sampleThread]).length = [sampleThread].length
    ∧ ∀ c ∈ extractEssentialComments [sampleThread],
        c = { parentId := c.parentId, text := c.text } :=
  C3_theorem CommentService.new
    { youtube := some { version := "v3", auth := "key" }, initialized := true }
    (some "key") threadsApiOk "dQw4w9WgXcQ" [sampleThread]
    (some { totalResults := some 42, resultsPerPage := some 20 }) rfl rfl

/-- C4: with `maxResults` and `textFormat` omitted, `getCommentReplies`
issues one upstream `comments.list` request — part `snippet`, the given
parentId, `maxResults = 20`, `textFormat = 'plainText'` — and for an
upstream response of `n = l.length` reply records returns a plain list of
`n` strings whose `i`-th element is reply `i`'s `snippet.textDisplay`, or
`''` when that text is absent (or empty, which JS `|| ''` also maps to `''`). -/
theorem C4_theorem (s s1 : CommentService) (env : Option String)
    (api : CommentsListRequest → Except String RepliesResponse)
    (parentId : String) (l : List ReplyRec)
    (hinit : s.initializeClient env = .ok s1)
    (hapi : api { part := ["snippet"], parentId := parentId, maxResults := 20,
                  textFormat := "plainText" }
            = .ok { items := some l }) :
    s.getCommentReplies env api { parentId := parentId, maxResults := none, textFormat := none }
      = ([{ part := ["snippet"], parentId := parentId, maxResults := 20,
            textFormat := "plainText" }],
         .ok (s1, extractEssentialReplies l))
    ∧ (extractEssentialReplies l).length = l.length
    ∧ ∀ i (hi : i < l.length),
        (extractEssentialReplies l)[i]? =
          some (strOrElse ((l.get ⟨i, hi⟩).snippet.bind (fun sn => sn.textDisplay)) "") := by
  refine ⟨?_, ?_, ?_⟩
  · simp [CommentService.getCommentReplies, hinit, commentRepliesRequest, hapi]
  · simp [extractEssentialReplies]
  · intro i hi
    simp [extractEssentialReplies, List.getElem?_map, List.getElem?_eq_getElem hi,
      extractEssentialReply]

/-- C4 witness: concrete call with a stub upstream returning one reply whose
display text is `'Thanks'`. -/
theorem C4_witness :
    CommentService.new.getCommentReplies (some "key") repliesApiOk
        { parentId := "abc", maxResults := none, textFormat := none }
      = ([{ part := ["snippet"], parentId := "abc", maxResults := 20,
            textFormat := "plainText" }],
         .ok ({ youtube := some { version := "v3", auth := "key" }, initialized := true },
              extractEssentialReplies [sampleReply]))
    ∧ (extractEssentialReplies [sampleReply]).length = [sampleReply].length
    ∧ ∀ i (hi : i < [sampleReply].length),
        (extractEssentialReplies [sampleReply])[i]? =
          some (strOrElse (([sampleReply].get ⟨i, hi⟩).snippet.bind (fun sn => sn.textDisplay)) "") :=
  C4_theorem CommentService.new
    { youtube := some { version := "v3", auth := "key" }, initialized := true }
    (some "key") repliesApiOk "abc" [sampleReply] rfl rfl

/-- C5: both projections are order-preserving maps: the output length equals
the input length and the `i`-th output is the projection of the `i`-th
input, for comment threads and for replies. -/
theorem C5_theorem (cs : List CommentRec) (rs : List ReplyRec) (i j : Nat)
    (hi : i < cs.length) (hj : j < rs.length) :
    (extractEssentialComments cs).length = cs.length
    ∧ (extractEssentialReplies rs).length = rs.length
    ∧ (extractEssentialComments cs)[i]? = some (extractEssentialComment (cs.get ⟨i, hi⟩))
    ∧ (extractEssentialReplies rs)[j]? = some (extractEssentialReply (rs.get ⟨j, hj⟩)) := by
  refine ⟨?_, ?_, ?_, ?_⟩
  · simp [extractEssentialComments]
  · simp [extractEssentialReplies]
  · simp [extractEssentialComments, List.getElem?_map, List.getElem?_eq_getElem hi]
  · simp [extractEssentialReplies, List.getElem?_map, List.getElem?_eq_getElem hj]

/-- C5 witness: two-element lists, position 0. -/
theorem C5_witness :
    (extractEssentialComments [sampleThread, sampleProjected]).length
        = [sampleThread, sampleProjected].length
    ∧ (extractEssentialReplies [sampleReply]).length = [sampleReply].length
    ∧ (extractEssentialComments [sampleThread, sampleProjected])[0]? =
        some (extractEssentialComment ([sampleThread, sampleProjected].get ⟨0, by decide⟩))
    ∧ (extractEssentialReplies [sampleReply])[0]? =
        some (extractEssentialReply ([sampleReply].get ⟨0, by decide⟩)) :=
  C5_theorem [sampleThread, sampleProjected] [sampleReply] 0 0 (by decide) (by decide)

/-- C6: a comment-thread record lacking its `snippet` substructure projects
to text `''` with the best-effort identifier `comment.id`, and its presence
anywhere in a batch leaves the projection of every other record untouched. -/
theorem C6_theorem (c : CommentRec) (xs ys : List CommentRec)
    (hsnip : c.snippet = none) :
    (extractEssentialComment c).text = ""
    ∧ (extractEssentialComment c).parentId = c.id
    ∧ extractEssentialComments (xs ++ c :: ys)
        = extractEssentialComments xs
            ++ extractEssentialComment c :: extractEssentialComments ys := by
  refine ⟨?_, rfl, ?_⟩
  · simp [extractEssentialComment, hsnip, strOrElse]
  · simp [extractEssentialComments]

/-- C6 witness: a snippetless record between two well-formed records. -/
theorem C6_witness :
    (extractEssentialComment { id := some "x", snippet := none, parentId := none, text := none }).text = ""
    ∧ (extractEssentialComment { id := some "x", snippet := none, parentId := none, text := none }).parentId
        = ({ id := some "x", snippet := none, parentId := none, text := none } : CommentRec).id
    ∧ extractEssentialComments
        ([sampleThread] ++ { id := some "x", snippet := none, parentId := none, text := none } :: [sampleThread])
        = extractEssentialComments [sampleThread]
            ++ extractEssentialComment { id := some "x", snippet := none, parentId := none, text := none }
              :: extractEssentialComments [sampleThread] :=
  C6_theorem { id := some "x", snippet := none, parentId := none, text := none }
    [sampleThread] [sampleThread] rfl

/-- C7: when the upstream call fails, each operation fails as a whole with
exactly one error whose message is the fixed prefix plus the upstream
failure's message, and issues that one request; the error result carries no
comments and no replies (no partial results). -/
theorem C7_theorem (s s1 : CommentService) (env : Option String)
    (apiThreads : CommentThreadsListRequest → Except String CommentThreadsResponse)
    (apiReplies : CommentsListRequest → Except String RepliesResponse)
    (p : VideoCommentsParams) (q : CommentRepliesParams) (e1 e2 : String)
    (hinit : s.initializeClient env = .ok s1)
    (h1 : apiThreads (videoCommentsRequest p) = .error e1)
    (h2 : apiReplies (commentRepliesRequest q) = .error e2) :
    s.getVideoComments env apiThreads p
      = ([videoCommentsRequest p], .error ("Failed to get comments: " ++ e1))
    ∧ s.getCommentReplies env apiReplies q
      = ([commentRepliesRequest q], .error ("Failed to get replies: " ++ e2)) := by
  constructor
  · simp [CommentService.getVideoComments, hinit, h1]
  · simp [CommentService.getCommentReplies, hinit, h2]

/-- C7 witness: stub upstreams that reject with `'quota exceeded'`. -/
theorem C7_witness :
    CommentService.new.getVideoComments (some "key")
        (fun _ => .error "quota exceeded")
        { videoId := "dQw4w9WgXcQ", maxResults := none, textFormat := none }
      = ([videoCommentsRequest { videoId := "dQw4w9WgXcQ", maxResults := none, textFormat := none }],
         .error ("Failed to get comments: " ++ "quota exceeded"))
    ∧ CommentService.new.getCommentReplies (some "key")
        (fun _ => .error "quota exceeded")
        { parentId := "abc", maxResults := none, textFormat := none }
      = ([commentRepliesRequest { parentId := "abc", maxResults := none, textFormat := none }],
         .error ("Failed to get replies: " ++ "quota exceeded")) :=
  C7_theorem CommentService.new
    { youtube := some { version := "v3", auth := "key" }, initialized := true }
    (some "key") (fun _ => .error "quota exceeded") (fun _ => .error "quota exceeded")
    { videoId := "dQw4w9WgXcQ", maxResults := none, textFormat := none }
    { parentId := "abc", maxResults := none, textFormat := none }
    "quota exceeded" "quota exceeded" rfl rfl rfl

/-- C8: an upstream response with no `items` list (`items` absent) makes
`getVideoComments` succeed with `comments = []` and the upstream `pageInfo`,
and `getCommentReplies` succeed with `[]`, rather than raising an error. -/
theorem C8_theorem (s s1 : CommentService) (env : Option String)
    (apiThreads : CommentThreadsListRequest → Except String CommentThreadsResponse)
    (apiReplies : CommentsListRequest → Except String RepliesResponse)
    (p : VideoCommentsParams) (q : CommentRepliesParams) (pgInfo : Option PageInfo)
    (hinit : s.initializeClient env = .ok s1)
    (h1 : apiThreads (videoCommentsRequest p) = .ok { items := none, pageInfo := pgInfo })
    (h2 : apiReplies (commentRepliesRequest q) = .ok { items := none }) :
    s.getVideoComments env apiThreads p
      = ([videoCommentsRequest p], .ok (s1, { comments := [], pageInfo := pgInfo }))
    ∧ s.getCommentReplies env apiReplies q
      = ([commentRepliesRequest q], .ok (s1, [])) := by
  constructor
  · simp [CommentService.getVideoComments, hinit, h1, extractEssentialComments]
  · simp [CommentService.getCommentReplies, hinit, h2, extractEssentialReplies]

/-- C8 witness: stub upstreams whose responses carry no `items`. -/
theorem C8_witness :
    CommentService.new.getVideoComments (some "key")
        (fun _ => .ok { items := none, pageInfo := some { totalResults := some 0, resultsPerPage := some 20 } })
        { videoId := "dQw4w9WgXcQ", maxResults := none, textFormat := none }
      = ([videoCommentsRequest { videoId := "dQw4w9WgXcQ", maxResults := none, textFormat := none }],
         .ok ({ youtube := some { version := "v3", auth := "key" }, initialized := true },
              { comments := [], pageInfo := some { totalResults := some 0, resultsPerPage := some 20 } }))
    ∧ CommentService.new.getCommentReplies (some "key")
        (fun _ => .ok { items := none })
        { parentId := "abc", maxResults := none, textFormat := none }
      = ([commentRepliesRequest { parentId := "abc", maxResults := none, textFormat := none }],
         .ok ({ youtube := some { version := "v3", auth := "key" }, initialized := true }, [])) :=
  C8_theorem CommentService.new
    { youtube := some { version := "v3", auth := "key" }, initialized := true }
    (some "key")
    (fun _ => .ok { items := none, pageInfo := some { totalResults := some 0, resultsPerPage := some 20 } })
    (fun _ => .ok { items := none })
    { videoId := "dQw4w9WgXcQ", maxResults := none, textFormat := none }
    { parentId := "abc", maxResults := none, textFormat := none }
    (some { totalResults := some 0, resultsPerPage := some 20 }) rfl rfl rfl

/-- C9: both projections are pointwise maps, so they distribute over list
append and send a singleton to the singleton of the projected element. -/
theorem C9_theorem (xs ys : List CommentRec) (rs1 rs2 : List ReplyRec)
    (x : CommentRec) (r : ReplyRec) :
    extractEssentialComments (xs ++ ys)
        = extractEssentialComments xs ++ extractEssentialComments ys
    ∧ extractEssentialReplies (rs1 ++ rs2)
        = extractEssentialReplies rs1 ++ extractEssentialReplies rs2
    ∧ extractEssentialComments [x] = [extractEssentialComment x]
    ∧ extractEssentialReplies [r] = [extractEssentialReply r] := by
  refine ⟨?_, ?_, rfl, rfl⟩
  · simp [extractEssentialComments]
  · simp [extractEssentialReplies]

/-- C10: over the full space of records with every field optional at every
nesting depth — the shallow embedding of arbitrary field presence or
absence — both projections are total functions (they are plain `map`s of
total per-record projections, so no input throws), the output lengths match
the inputs, and every record `extractEssentialComments` produces is an
`OptimizedComment`, i.e. carries exactly the two fields `parentId` and
`text`. -/
theorem C10_theorem (cs : List CommentRec) (rs : List ReplyRec) :
    (extractEssentialComments cs).length = cs.length
    ∧ (extractEssentialReplies rs).length = rs.length
    ∧ ∀ c ∈ extractEssentialComments cs,
        c = OptimizedComment.mk c.parentId c.text := by
  refine ⟨?_, ?_, ?_⟩
  · simp [extractEssentialComments]
  · simp [extractEssentialReplies]
  · intro c _
    rfl

end YoutubeMcp
